import Mathlib

/-!
Shallow embedding of the graphics resource layer of crankstart
(src/graphics.rs): the reference-counted Bitmap handle, the memoizing
BitmapTable cache, the Font wrapper, and the load / frame-buffer / drawing
entry points of the Graphics facade. The native Playdate driver is modeled as
an explicit stub whose responses are passed in as data, and every native call
the layer issues is recorded in a trace, so that counting and frame properties
can be stated and proved. Machine pointers are natural numbers (0 is null) and
32-bit floats are carried as opaque bit patterns: this layer never computes
with either, it only marshals them to the driver.
-/

set_option linter.unusedVariables false

/-- Native pointers are modeled as natural numbers; 0 is the null pointer. -/
abbrev Ptr := Nat

/-- Carrier for a 32-bit float crossing the FFI boundary, held as its IEEE-754
bit pattern. The layer performs no floating-point arithmetic; scale factors
and angles are only passed through to the driver. -/
structure F32 where
  bits : Nat
deriving DecidableEq

/-- Model of euclid's Point2D over i32, used as ScreenPoint and as the
reference point of into_color. -/
structure ScreenPointM where
  x : Int
  y : Int
deriving DecidableEq

/-- Model of euclid's Size2D over i32, used as ScreenSize. -/
structure ScreenSizeM where
  width : Int
  height : Int
deriving DecidableEq

/-- Model of euclid's Vector2D over f32 (scale arguments). -/
structure Vector2F32 where
  x : F32
  y : F32
deriving DecidableEq

/-- Model of crankstart_sys::LCDRect (clip rectangles). -/
structure LCDRectM where
  left : Int
  right : Int
  top : Int
  bottom : Int
deriving DecidableEq

/-- Model of crankstart_sys::LCDBitmapFlip. -/
inductive LCDBitmapFlip
  | kBitmapUnflipped
  | kBitmapFlippedX
  | kBitmapFlippedY
  | kBitmapFlippedXY
deriving DecidableEq

/-- Model of crankstart_sys::LCDBitmapDrawMode. -/
inductive LCDBitmapDrawMode
  | kDrawModeCopy
  | kDrawModeWhiteTransparent
  | kDrawModeBlackTransparent
  | kDrawModeFillWhite
  | kDrawModeFillBlack
  | kDrawModeXOR
  | kDrawModeNXOR
  | kDrawModeInverted
deriving DecidableEq

/-- Model of LCDColor (graphics.rs:30): either a named solid color (its enum
value) or a literal tiling pattern; LCDPattern is a 16-byte array (8 pattern
rows followed by 8 mask rows), modeled as a list of byte values. -/
inductive LCDColorM
  | Solid (value : Nat)
  | Pattern (bytes : List Nat)
deriving DecidableEq

/-- Driver function-table calls issued by this layer, with the arguments as
marshalled at the call site, as recorded by a counting / tracing driver stub. -/
inductive NativeCall
  | getTableBitmap (table : Ptr) (index : Nat)
  | freeBitmap (bitmap : Ptr)
  | freeBitmapTable (table : Ptr)
  | drawScaledBitmap (bitmap target stencil : Ptr) (x y : Int)
      (xscale yscale : F32) (mode : LCDBitmapDrawMode) (clip : LCDRectM)
  | fillEllipse (target stencil : Ptr) (x y width height : Int)
      (startAngle endAngle : F32) (color : LCDColorM) (clip : LCDRectM)
  | drawEllipse (target stencil : Ptr) (x y width height : Int)
      (lineWidth : Int) (startAngle endAngle : F32) (color : LCDColorM)
      (clip : LCDRectM)
deriving DecidableEq

/-- Events observable at the driver / logging boundary: a console log line or a
native driver call. -/
inductive TraceEvent
  | log (msg : String)
  | native (call : NativeCall)
deriving DecidableEq

/-- Whether a trace event is a native call that releases a resource: freeBitmap
(issued by BitmapInner's Drop impl, graphics.rs:242) or freeBitmapTable
(issued by BitmapTableInner's Drop impl, graphics.rs:433). -/
def TraceEvent.releasesResource : TraceEvent → Bool
  | .native (.freeBitmap _) => true
  | .native (.freeBitmapTable _) => true
  | _ => false

/-- A Bitmap value (graphics.rs:250): inner is an Rc of a RefCell of
BitmapInner. rcId is the identity of that shared cell — two clones of one
Bitmap share it — and raw_bitmap is the native handle stored in the cell.
Bitmap::clone copies both fields: it shares the cell, it never re-fetches or
reallocates the native resource. -/
structure BitmapObj where
  rcId : Nat
  raw_bitmap : Ptr
deriving DecidableEq

/-- Trace of BitmapInner's Drop impl (graphics.rs:242): one freeBitmap call on
the held handle, through the logging bridge variant (errors swallowed). -/
def BitmapInner.dropTrace (raw_bitmap : Ptr) : List TraceEvent :=
  [TraceEvent.native (NativeCall.freeBitmap raw_bitmap)]

/-- Trace of BitmapTableInner's Drop impl (graphics.rs:433): one
freeBitmapTable call on the held handle. -/
def BitmapTableInner.dropTrace (raw_bitmap_table : Ptr) : List TraceEvent :=
  [TraceEvent.native (NativeCall.freeBitmapTable raw_bitmap_table)]

/-- State of one Rc-shared BitmapInner cell: its strong reference count, the
native handle held by the BitmapInner, and the trace of events emitted so far.
Bitmap::new (graphics.rs:256) creates the cell with strong count 1;
Bitmap::clone increments the count; dropping a Bitmap decrements it, and when
the count reaches zero the BitmapInner itself is dropped, which issues the
freeBitmap call (graphics.rs:242). -/
structure RcBitmap where
  strong : Nat
  raw_bitmap : Ptr
  trace : List TraceEvent
deriving DecidableEq

/-- Bitmap::new (graphics.rs:256): allocate a fresh Rc cell with count 1. -/
def RcBitmap.new (raw_bitmap : Ptr) : RcBitmap :=
  { strong := 1, raw_bitmap := raw_bitmap, trace := [] }

/-- Bitmap::clone: one more strong reference to the same cell; no native call. -/
def RcBitmap.cloneRef (w : RcBitmap) : RcBitmap :=
  { w with strong := w.strong + 1 }

/-- Dropping one Bitmap reference: Rc decrements the strong count, and exactly
when the dropped reference was the last one, BitmapInner's Drop impl runs and
emits the freeBitmap call for the held handle. -/
def RcBitmap.dropRef (w : RcBitmap) : RcBitmap :=
  if w.strong = 1 then
    { w with strong := 0, trace := w.trace ++ BitmapInner.dropTrace w.raw_bitmap }
  else
    { w with strong := w.strong - 1 }

/-- Iterated dropping of n references. -/
def RcBitmap.dropN : Nat → RcBitmap → RcBitmap
  | 0, w => w
  | n + 1, w => RcBitmap.dropN n w.dropRef

/-- Number of resource-releasing native calls in a trace. -/
def freeCount (tr : List TraceEvent) : Nat :=
  (tr.filter TraceEvent.releasesResource).length

/-- Font (graphics.rs:359): a plain wrapper around the native LCDFont handle,
not reference-counted. -/
structure Font where
  ptr : Ptr
deriving DecidableEq

/-- Font::new (graphics.rs:362): rejects a null handle with an error (the
ensure macro) and performs no native call either way. The second component is
the list of native calls issued during construction. -/
def Font.new (font : Ptr) : Except String Font × List NativeCall :=
  if font = 0 then
    (Except.error ("Null pointer passed to Font::new"), [])
  else
    (Except.ok { ptr := font }, [])

/-- Drop for Font (graphics.rs:380): only logs the line "Leaking a font"; the
native font resource is never released. -/
def Font.drop (f : Font) : List TraceEvent :=
  [TraceEvent.log ("Leaking a font")]

/-- BitmapTableInner (graphics.rs:386): the native strip handle plus the
index-to-Bitmap memo cache. The HashMap is modeled as an association list:
inserts prepend and lookup takes the first match; get_bitmap only ever inserts
a key that is absent, so keys are never duplicated. -/
structure BitmapTableInner where
  raw_bitmap_table : Ptr
  bitmaps : List (Nat × BitmapObj)
deriving DecidableEq

/-- First-match lookup in the modeled HashMap. -/
def lookupBitmap : List (Nat × BitmapObj) → Nat → Option BitmapObj
  | [], _ => none
  | (k, b) :: rest, i => if k = i then some b else lookupBitmap rest i

/-- Keys of the modeled HashMap. -/
def keysOf (m : List (Nat × BitmapObj)) : List Nat :=
  m.map Prod.fst

/-- World for running BitmapTableInner::get_bitmap against a counting driver
stub. The stub's getTableBitmap always succeeds, handing out the fresh
non-null handle driverNext (then incrementing it) — this is the fake counting
driver of the specification, and it returns a distinct fresh handle on every
fetch, as a real driver may. nextRc numbers the Rc cells created by
Bitmap::new, and trace records every native call issued. -/
structure TableWorld where
  inner : BitmapTableInner
  nextRc : Nat
  driverNext : Ptr
  trace : List NativeCall
deriving DecidableEq

/-- A freshly constructed table world: empty cache, no calls issued yet. -/
def mkTableWorld (raw_bitmap_table : Ptr) (driverNext : Ptr) : TableWorld :=
  { inner := { raw_bitmap_table := raw_bitmap_table, bitmaps := [] }
    nextRc := 0
    driverNext := driverNext
    trace := [] }

/-- BitmapTableInner::get_bitmap (graphics.rs:393). On a cache hit it returns a
clone of the cached Bitmap and issues no native call. On a miss it issues
getTableBitmap, fails (ensure) if the returned handle is null, and otherwise
wraps the fresh handle with Bitmap::new, caches a clone under the index and
returns it. The trace records the fetch before the null check, as the source
issues the call before the ensure. -/
def TableWorld.get_bitmap (w : TableWorld) (index : Nat) :
    Except String BitmapObj × TableWorld :=
  match lookupBitmap w.inner.bitmaps index with
  | some bitmap => (Except.ok bitmap, w)
  | none =>
    if w.driverNext = 0 then
      (Except.error ("Failed to load bitmap " ++ toString index ++ " from table"),
       { w with
         trace := w.trace ++ [NativeCall.getTableBitmap w.inner.raw_bitmap_table index]
         driverNext := w.driverNext + 1 })
    else
      (Except.ok { rcId := w.nextRc, raw_bitmap := w.driverNext },
       { inner :=
           { raw_bitmap_table := w.inner.raw_bitmap_table
             bitmaps := (index, { rcId := w.nextRc, raw_bitmap := w.driverNext })
               :: w.inner.bitmaps }
         nextRc := w.nextRc + 1
         driverNext := w.driverNext + 1
         trace := w.trace ++ [NativeCall.getTableBitmap w.inner.raw_bitmap_table index] })

/-- Run a sequence of get_bitmap calls, collecting the returned results. -/
def TableWorld.runGets : TableWorld → List Nat → List (Except String BitmapObj) × TableWorld
  | w, [] => ([], w)
  | w, i :: rest =>
    ((w.get_bitmap i).1 :: ((w.get_bitmap i).2.runGets rest).1,
     ((w.get_bitmap i).2.runGets rest).2)

/-- Number of getTableBitmap fetches in a native-call trace. -/
def fetchCount (tr : List NativeCall) : Nat :=
  (tr.filter fun c =>
    match c with
    | NativeCall.getTableBitmap _ _ => true
    | _ => false).length

/-- Number of elements of a list not occurring in seen, counted once each. -/
def distinctNewCount (seen : List Nat) : List Nat → Nat
  | [] => 0
  | i :: rest =>
    if i ∈ seen then distinctNewCount seen rest
    else distinctNewCount (i :: seen) rest + 1

/-- BitmapTable::new (graphics.rs:450): wraps a caller-supplied strip handle
with an empty cache. It is infallible — there is no null check — and it issues
no native call; the second component is the list of native calls issued. -/
def BitmapTable.new (raw_bitmap_table : Ptr) : BitmapTableInner × List NativeCall :=
  ({ raw_bitmap_table := raw_bitmap_table, bitmaps := [] }, [])

/-- Whether a native call passes a null bitmap-table handle to the driver. -/
def usesNullTableArg : NativeCall → Bool
  | NativeCall.getTableBitmap table _ => table == 0
  | _ => false

/-- Response of the driver stub to a load call: the handle produced by the
decode (0 when the decode failed) and the optional error string written to the
out_err slot. For loadIntoBitmap / loadIntoBitmapTable the C signature returns
no handle, so those operations can only read the err field. -/
structure LoadResponse where
  handle : Ptr
  err : Option String
deriving DecidableEq

/-- Fallback error message of Graphics::load_bitmap (graphics.rs:566). -/
def load_bitmap_silent_msg : String :=
  "load_bitmap failed without providing an error message"

/-- Fallback error message of Graphics::load_bitmap_table (graphics.rs:596). -/
def load_bitmap_table_silent_msg : String :=
  "load_bitmap_table failed without providing an error message"

/-- Whether CString::new would reject the path: true iff it contains an
interior NUL byte. -/
def pathHasNul (path : String) : Bool :=
  path.toList.any fun c => c == Char.ofNat 0

/-- Graphics::load_bitmap (graphics.rs:557): convert the path, call loadBitmap;
on a null handle fail with the driver's error string if present and with the
fixed fallback message otherwise; on a non-null handle wrap it with
Bitmap::new and succeed regardless of the error string slot. -/
def Graphics.load_bitmap (path : String) (resp : LoadResponse) : Except String Ptr :=
  if pathHasNul path then Except.error ("path contains an interior nul byte")
  else if resp.handle = 0 then
    match resp.err with
    | some msg => Except.error msg
    | none => Except.error load_bitmap_silent_msg
  else Except.ok resp.handle

/-- Graphics::load_bitmap_table (graphics.rs:586): same shape as load_bitmap
with its own fallback message, wrapping the handle with BitmapTable::new. -/
def Graphics.load_bitmap_table (path : String) (resp : LoadResponse) : Except String Ptr :=
  if pathHasNul path then Except.error ("path contains an interior nul byte")
  else if resp.handle = 0 then
    match resp.err with
    | some msg => Except.error msg
    | none => Except.error load_bitmap_table_silent_msg
  else Except.ok resp.handle

/-- BitmapInner::load (graphics.rs:196): convert the path (CString conversion
fails on an interior NUL byte), call loadIntoBitmap on the existing handle,
then fail iff the driver wrote an error string into out_err. loadIntoBitmap's
C signature returns no handle, so the stub's handle field is never read here:
there is no null-handle branch and no silent-failure fallback. -/
def BitmapInner.load (raw_bitmap : Ptr) (path : String) (resp : LoadResponse) :
    Except String Unit :=
  if pathHasNul path then Except.error ("path contains an interior nul byte")
  else
    match resp.err with
    | some msg => Except.error msg
    | none => Except.ok ()

/-- BitmapTableInner::load (graphics.rs:414): convert the path, call
loadIntoBitmapTable on the existing strip handle, fail iff the driver wrote an
error string. The function never touches the bitmaps cache; the returned state
is the inner table, unchanged in every branch. -/
def BitmapTableInner.load (inner : BitmapTableInner) (path : String)
    (resp : LoadResponse) : Except String Unit × BitmapTableInner :=
  if pathHasNul path then
    (Except.error ("path contains an interior nul byte"), inner)
  else
    match resp.err with
    | some msg => (Except.error msg, inner)
    | none => (Except.ok (), inner)

/-- LCD geometry constants from crankstart_sys (the Playdate display):
240 rows of 52 bytes each. -/
def LCD_ROWS : Nat := 240

/-- Row stride in bytes of the Playdate frame buffer. -/
def LCD_ROWSIZE : Nat := 52

/-- A mutable byte-slice view handed out by get_frame / get_display_frame:
its base pointer and its length, as produced by slice::from_raw_parts_mut. -/
structure FrameSlice where
  base : Ptr
  len : Nat
deriving DecidableEq

/-- Graphics::get_frame (graphics.rs:488): the driver returns the frame
pointer; a null pointer is rejected with an error, otherwise the code builds a
slice of exactly LCD_ROWSIZE * LCD_ROWS bytes over it. -/
def Graphics.get_frame (framePtr : Ptr) : Except String FrameSlice :=
  if framePtr = 0 then Except.error ("Null pointer returned from getFrame")
  else Except.ok { base := framePtr, len := LCD_ROWSIZE * LCD_ROWS }

/-- Graphics::get_display_frame (graphics.rs:498): identical shape over
getDisplayFrame. -/
def Graphics.get_display_frame (framePtr : Ptr) : Except String FrameSlice :=
  if framePtr = 0 then Except.error ("Null pointer returned from getDisplayFrame")
  else Except.ok { base := framePtr, len := LCD_ROWSIZE * LCD_ROWS }

/-- Response of the driver stub to setColorToPattern: the pattern bytes the
driver derived from the bitmap at the reference point, stored in a
driver-owned buffer, and the address of that buffer, which the driver writes
into the LCDColor slot it was handed. -/
structure SetColorToPatternResponse where
  driverPatternBytes : List Nat
  driverPatternPtr : Ptr
deriving DecidableEq

/-- Outcome of BitmapInner::into_color: the LCDColor value the function
returns, and the final content of the pattern_val slot (which the source
discards). -/
structure IntoColorResult where
  returned : LCDColorM
  slotAfterCall : Ptr
deriving DecidableEq

/-- BitmapInner::into_color (graphics.rs:181). The source allocates a local
LCDPattern::default() buffer (16 zero bytes), stores that buffer's address in
the local pattern_val, and passes a mutable reference to pattern_val — a slot
of C type LCDColor, an integer — to setColorToPattern. The driver derives a
pattern from the bitmap and writes the address of its own pattern buffer into
that slot; it never writes through the address the slot previously held. The
source then ignores pattern_val and returns LCDColor::Pattern(pattern): the
local buffer, still holding its default-initialized zero bytes. The unused
bitmap parameter mirrors the unused bitmap argument of the source. -/
def BitmapInner.into_color (raw_bitmap : Ptr) (bitmap : BitmapObj)
    (top_left : ScreenPointM) (resp : SetColorToPatternResponse) : IntoColorResult :=
  { returned := LCDColorM.Pattern (List.replicate 16 0)
    slotAfterCall := resp.driverPatternPtr }

/-- Helper raw_bitmap (graphics.rs:351): the shared cell's handle for Some, the
null pointer for None (meaning the on-screen frame buffer / no stencil). -/
def raw_bitmap : Option BitmapObj → Ptr
  | some b => b.raw_bitmap
  | none => 0

/-- BitmapInner::draw_scaled (graphics.rs:106): marshals straight into
drawScaledBitmap. No flip argument exists at this level. -/
def BitmapInner.draw_scaled (raw : Ptr) (target stencil : Option BitmapObj)
    (location : ScreenPointM) (scale : Vector2F32) (mode : LCDBitmapDrawMode)
    (clip : LCDRectM) : NativeCall :=
  NativeCall.drawScaledBitmap raw (raw_bitmap target) (raw_bitmap stencil)
    location.x location.y scale.x scale.y mode clip

/-- Bitmap::draw_scaled (graphics.rs:280): the public wrapper accepts a flip
argument but forwards to BitmapInner::draw_scaled without it. -/
def Bitmap.draw_scaled (b : BitmapObj) (target stencil : Option BitmapObj)
    (location : ScreenPointM) (scale : Vector2F32) (mode : LCDBitmapDrawMode)
    (flip : LCDBitmapFlip) (clip : LCDRectM) : NativeCall :=
  BitmapInner.draw_scaled b.raw_bitmap target stencil location scale mode clip

/-- Graphics::fill_ellipse (graphics.rs:730): accepts a line_width argument but
marshals into fillEllipse without it (contrast draw_ellipse below). -/
def Graphics.fill_ellipse (target stencil : Option BitmapObj) (center : ScreenPointM)
    (size : ScreenSizeM) (line_width : Int) (start_angle end_angle : F32)
    (color : LCDColorM) (clip : LCDRectM) : NativeCall :=
  NativeCall.fillEllipse (raw_bitmap target) (raw_bitmap stencil)
    center.x center.y size.width size.height start_angle end_angle color clip

/-- Graphics::draw_ellipse (graphics.rs:702): passes line_width through to the
driver, unlike fill_ellipse. -/
def Graphics.draw_ellipse (target stencil : Option BitmapObj) (center : ScreenPointM)
    (size : ScreenSizeM) (line_width : Int) (start_angle end_angle : F32)
    (color : LCDColorM) (clip : LCDRectM) : NativeCall :=
  NativeCall.drawEllipse (raw_bitmap target) (raw_bitmap stencil)
    center.x center.y size.width size.height line_width start_angle end_angle color clip

/-- Claim C3 as stated, formalized over a driver stub response (handle, err)
for each of the three load operations: a (null handle, some err) response
fails with that string; a (null handle, no err) response fails with the
distinct silent-failure error; a (non-null handle, any err) response succeeds.
The Bitmap::load conjuncts are the part the code violates. -/
def C3ClaimAsStated : Prop :=
  ∀ (path : String) (resp : LoadResponse) (raw : Ptr), pathHasNul path = false →
    ((resp.handle = 0 → resp.err = none →
       Graphics.load_bitmap path resp = Except.error load_bitmap_silent_msg ∧
       Graphics.load_bitmap_table path resp = Except.error load_bitmap_table_silent_msg ∧
       (BitmapInner.load raw path resp).isOk = false) ∧
     (∀ msg, resp.handle = 0 → resp.err = some msg →
       Graphics.load_bitmap path resp = Except.error msg ∧
       Graphics.load_bitmap_table path resp = Except.error msg ∧
       BitmapInner.load raw path resp = Except.error msg) ∧
     (resp.handle ≠ 0 →
       (Graphics.load_bitmap path resp).isOk = true ∧
       (Graphics.load_bitmap_table path resp).isOk = true ∧
       (BitmapInner.load raw path resp).isOk = true))

/-- Claim C5 as stated, formalized: Font::new rejects a null handle, and a null
handle passed to BitmapTable::new never propagates into a subsequent native
call (every native call a null-constructed table issues carries a non-null
table handle). The second conjunct is the part the code violates: the source's
BitmapTable::new has no null check at all. -/
def C5ClaimAsStated : Prop :=
  ((Font.new 0).1.isOk = false) ∧
  (∀ i : Nat,
    (((mkTableWorld (BitmapTable.new 0).1.raw_bitmap_table 1).get_bitmap i).2).trace.all
      (fun c => !(usesNullTableArg c)) = true)

/-- Lookup misses exactly when the index is not among the cache keys. -/
lemma lookupBitmap_none_iff (m : List (Nat × BitmapObj)) (i : Nat) :
    lookupBitmap m i = none ↔ i ∉ keysOf m := by
  induction m with
  | nil => simp [lookupBitmap, keysOf]
  | cons p rest ih =>
    obtain ⟨k, b⟩ := p
    by_cases hk : k = i
    · subst hk
      simp [lookupBitmap, keysOf]
    · simp only [lookupBitmap, if_neg hk, keysOf, List.map_cons, List.mem_cons]
      rw [ih]
      constructor
      · intro hnone hmem
        rcases hmem with h1 | h2
        · exact hk h1.symm
        · exact hnone h2
      · intro hnot hmem
        exact hnot (Or.inr hmem)

/-- A cache hit returns the cached Bitmap and leaves the world unchanged. -/
lemma get_bitmap_hit {w : TableWorld} {i : Nat} {b : BitmapObj}
    (h : lookupBitmap w.inner.bitmaps i = some b) :
    w.get_bitmap i = (Except.ok b, w) := by
  simp [TableWorld.get_bitmap, h]

/-- A cache miss with a non-null stub handle: the returned Bitmap, the cache
insertion, the recorded fetch and the driver counter increment. -/
lemma get_bitmap_miss_spec {w : TableWorld} {i : Nat}
    (h : lookupBitmap w.inner.bitmaps i = none) (hd : 1 ≤ w.driverNext) :
    (w.get_bitmap i).1 = Except.ok { rcId := w.nextRc, raw_bitmap := w.driverNext } ∧
    (w.get_bitmap i).2.inner.bitmaps
      = (i, { rcId := w.nextRc, raw_bitmap := w.driverNext }) :: w.inner.bitmaps ∧
    (w.get_bitmap i).2.trace
      = w.trace ++ [NativeCall.getTableBitmap w.inner.raw_bitmap_table i] ∧
    (w.get_bitmap i).2.driverNext = w.driverNext + 1 := by
  have hz : ¬ w.driverNext = 0 := Nat.one_le_iff_ne_zero.mp hd
  refine ⟨?_, ?_, ?_, ?_⟩ <;> simp [TableWorld.get_bitmap, h, hz]

/-- get_bitmap keeps the driver's fresh-handle counter positive. -/
lemma get_bitmap_driver_pos {w : TableWorld} (i : Nat) (hd : 1 ≤ w.driverNext) :
    1 ≤ ((w.get_bitmap i).2).driverNext := by
  unfold TableWorld.get_bitmap
  cases hc : lookupBitmap w.inner.bitmaps i with
  | some b => simpa using hd
  | none =>
    by_cases hz : w.driverNext = 0 <;> simp [hz]

/-- Entries already in the cache survive any get_bitmap call unchanged. -/
lemma get_bitmap_preserves_lookup {w : TableWorld} {j : Nat} {b' : BitmapObj} (i : Nat)
    (h : lookupBitmap w.inner.bitmaps j = some b') :
    lookupBitmap ((w.get_bitmap i).2).inner.bitmaps j = some b' := by
  unfold TableWorld.get_bitmap
  cases hc : lookupBitmap w.inner.bitmaps i with
  | some b => simpa using h
  | none =>
    by_cases hz : w.driverNext = 0
    · simpa [hz] using h
    · have hne : i ≠ j := by
        intro he
        rw [he, h] at hc
        cases hc
      simp [hz, lookupBitmap, hne]
      exact h

/-- Entries already in the cache survive a whole run unchanged. -/
lemma runGets_preserves_lookup {j : Nat} {b' : BitmapObj} :
    ∀ (is : List Nat) (w : TableWorld),
      lookupBitmap w.inner.bitmaps j = some b' →
      lookupBitmap ((w.runGets is).2).inner.bitmaps j = some b' := by
  intro is
  induction is with
  | nil =>
    intro w h
    simpa [TableWorld.runGets] using h
  | cons i rest ih =>
    intro w h
    simp only [TableWorld.runGets]
    exact ih _ (get_bitmap_preserves_lookup i h)

/-- With a positive driver counter, get_bitmap succeeds and the returned Bitmap
is exactly the one cached under the index afterwards. -/
lemma get_bitmap_ok {w : TableWorld} (i : Nat) (hd : 1 ≤ w.driverNext) :
    ∃ b, (w.get_bitmap i).1 = Except.ok b ∧
      lookupBitmap ((w.get_bitmap i).2).inner.bitmaps i = some b := by
  cases hc : lookupBitmap w.inner.bitmaps i with
  | some b =>
    refine ⟨b, ?_, ?_⟩ <;> rw [get_bitmap_hit hc]
    exact hc
  | none =>
    obtain ⟨h1, h2, h3, h4⟩ := get_bitmap_miss_spec hc hd
    refine ⟨_, h1, ?_⟩
    rw [h2]
    simp [lookupBitmap]

/-- The run returns one result per queried index. -/
lemma runGets_length : ∀ (is : List Nat) (w : TableWorld),
    (w.runGets is).1.length = is.length := by
  intro is
  induction is with
  | nil => intro w; rfl
  | cons i rest ih => intro w; simp [TableWorld.runGets, ih]

/-- Each successful position of a run returns exactly the Bitmap cached under
its index in the final cache. -/
lemma runGets_result_lookup :
    ∀ (is : List Nat) (w : TableWorld), 1 ≤ w.driverNext →
    ∀ (j i : Nat), is[j]? = some i →
    ∃ b, (w.runGets is).1[j]? = some (Except.ok b) ∧
      lookupBitmap ((w.runGets is).2).inner.bitmaps i = some b := by
  intro is
  induction is with
  | nil =>
    intro w hw j i hj
    simp at hj
  | cons i0 rest ih =>
    intro w hw j i hj
    match j with
    | 0 =>
      simp only [List.getElem?_cons_zero, Option.some.injEq] at hj
      subst hj
      obtain ⟨b, hb1, hb2⟩ := get_bitmap_ok i0 hw
      refine ⟨b, ?_, ?_⟩
      · simp [TableWorld.runGets, hb1]
      · simp only [TableWorld.runGets]
        exact runGets_preserves_lookup rest _ hb2
    | j' + 1 =>
      simp only [List.getElem?_cons_succ] at hj
      obtain ⟨b, hb1, hb2⟩ := ih _ (get_bitmap_driver_pos i0 hw) j' i hj
      refine ⟨b, ?_, ?_⟩
      · simp [TableWorld.runGets, hb1]
      · simpa [TableWorld.runGets] using hb2

/-- Fetch counts add over trace concatenation. -/
lemma fetchCount_append (t1 t2 : List NativeCall) :
    fetchCount (t1 ++ t2) = fetchCount t1 + fetchCount t2 := by
  simp [fetchCount, List.filter_append]

/-- Fetches issued by a run: one per queried index not already cached. -/
lemma runGets_fetchCount :
    ∀ (is : List Nat) (w : TableWorld), 1 ≤ w.driverNext →
    fetchCount ((w.runGets is).2).trace
      = fetchCount w.trace + distinctNewCount (keysOf w.inner.bitmaps) is := by
  intro is
  induction is with
  | nil =>
    intro w hw
    simp [TableWorld.runGets, distinctNewCount]
  | cons i rest ih =>
    intro w hw
    cases hc : lookupBitmap w.inner.bitmaps i with
    | some b =>
      have hmem : i ∈ keysOf w.inner.bitmaps := by
        by_contra hnot
        rw [← lookupBitmap_none_iff] at hnot
        rw [hnot] at hc
        cases hc
      have hstep : w.get_bitmap i = (Except.ok b, w) := get_bitmap_hit hc
      simp only [TableWorld.runGets, hstep]
      rw [ih w hw]
      simp [distinctNewCount, hmem]
    | none =>
      have hnmem : i ∉ keysOf w.inner.bitmaps := (lookupBitmap_none_iff _ _).mp hc
      obtain ⟨h1, hbm, htr, hdn⟩ := get_bitmap_miss_spec hc hw
      have hw1 : 1 ≤ ((w.get_bitmap i).2).driverNext := by
        rw [hdn]
        exact Nat.le_add_left 1 w.driverNext
      simp only [TableWorld.runGets]
      rw [ih _ hw1]
      have hfc : fetchCount ((w.get_bitmap i).2).trace = fetchCount w.trace + 1 := by
        rw [htr, fetchCount_append]
        rfl
      have hkeys : keysOf ((w.get_bitmap i).2).inner.bitmaps = i :: keysOf w.inner.bitmaps := by
        rw [hbm]
        rfl
      rw [hfc, hkeys]
      simp [distinctNewCount, hnmem]
      omega

/-- The distinct-new count over an empty seen set is the number of distinct
elements of the list. -/
lemma distinctNewCount_card (is : List Nat) :
    ∀ seen : List Nat, distinctNewCount seen is = (is.toFinset \ seen.toFinset).card := by
  induction is with
  | nil =>
    intro seen
    simp [distinctNewCount]
  | cons i rest ih =>
    intro seen
    by_cases h : i ∈ seen
    · have h' : i ∈ seen.toFinset := List.mem_toFinset.mpr h
      simp only [distinctNewCount, if_pos h]
      rw [ih seen, List.toFinset_cons, Finset.insert_sdiff_of_mem _ h']
    · have hi : i ∉ seen.toFinset := fun hc => h (List.mem_toFinset.mp hc)
      simp only [distinctNewCount, if_neg h]
      rw [ih (i :: seen), List.toFinset_cons, List.toFinset_cons,
        Finset.insert_sdiff_of_not_mem _ hi, Finset.sdiff_insert]
      by_cases hm : i ∈ rest.toFinset \ seen.toFinset
      · rw [Finset.card_erase_of_mem hm, Finset.insert_eq_self.mpr hm]
        have hpos : 0 < (rest.toFinset \ seen.toFinset).card :=
          Finset.card_pos.mpr ⟨i, hm⟩
        omega
      · rw [Finset.erase_eq_of_not_mem hm, Finset.card_insert_of_not_mem hm]

/-- Dropping every one of the n + 1 outstanding references frees the handle
exactly once, at the last drop. -/
lemma dropN_all_refs (n : Nat) : ∀ w : RcBitmap, w.strong = n + 1 →
    (RcBitmap.dropN (n + 1) w).trace = w.trace ++ BitmapInner.dropTrace w.raw_bitmap := by
  induction n with
  | zero =>
    intro w h
    simp [RcBitmap.dropN, RcBitmap.dropRef, h]
  | succ m ih =>
    intro w h
    have h1 : ¬ w.strong = 1 := by omega
    show (RcBitmap.dropN (m + 1) w.dropRef).trace = _
    have hw : w.dropRef = { w with strong := w.strong - 1 } := by
      simp [RcBitmap.dropRef, h1]
    rw [hw]
    have h2 : ({ w with strong := w.strong - 1 } : RcBitmap).strong = m + 1 := by
      simp
      omega
    rw [ih _ h2]

/-- C1: for every BitmapTable, once get_bitmap(i) has succeeded, every
subsequent get_bitmap(i) returns a Bitmap sharing the identical Rc cell and
native handle (equal results at equal query positions), and over any sequence
of get_bitmap calls from a fresh table, exactly as many getTableBitmap fetches
are issued as there are distinct queried indices. -/
theorem graphics_C1_get_bitmap_memoized (t : Ptr) (d : Nat) (hd : 1 ≤ d) (is : List Nat) :
    fetchCount (((mkTableWorld t d).runGets is).2).trace = is.toFinset.card ∧
    ∀ j k : Nat, is[j]? = is[k]? →
      ((mkTableWorld t d).runGets is).1[j]? = ((mkTableWorld t d).runGets is).1[k]? := by
  have hw : 1 ≤ (mkTableWorld t d).driverNext := hd
  constructor
  · rw [runGets_fetchCount is _ hw, distinctNewCount_card]
    simp [mkTableWorld, fetchCount, keysOf]
  · intro j k hjk
    cases hj : is[j]? with
    | none =>
      have hk : is[k]? = none := by rw [← hjk, hj]
      have h1 : ((mkTableWorld t d).runGets is).1[j]? = none := by
        rw [List.getElem?_eq_none_iff, runGets_length]
        exact List.getElem?_eq_none_iff.mp hj
      have h2 : ((mkTableWorld t d).runGets is).1[k]? = none := by
        rw [List.getElem?_eq_none_iff, runGets_length]
        exact List.getElem?_eq_none_iff.mp hk
      rw [h1, h2]
    | some i =>
      have hk : is[k]? = some i := by rw [← hjk, hj]
      obtain ⟨b, hb1, hb2⟩ := runGets_result_lookup is _ hw j i hj
      obtain ⟨b', hb1', hb2'⟩ := runGets_result_lookup is _ hw k i hk
      rw [hb1, hb1']
      rw [hb2] at hb2'
      injection hb2' with hbb
      rw [hbb]

/-- Witness for C1 at the run [0, 1, 0] on a fresh table: two fetches for two
distinct indices, and positions 0 and 2 return the identical Bitmap. -/
theorem graphics_C1_witness :
    fetchCount (((mkTableWorld 3 1).runGets [0, 1, 0]).2).trace
      = ([0, 1, 0] : List Nat).toFinset.card ∧
    ((mkTableWorld 3 1).runGets [0, 1, 0]).1[0]?
      = ((mkTableWorld 3 1).runGets [0, 1, 0]).1[2]? :=
  ⟨(graphics_C1_get_bitmap_memoized 3 1 (Nat.le_refl 1) [0, 1, 0]).1,
   (graphics_C1_get_bitmap_memoized 3 1 (Nat.le_refl 1) [0, 1, 0]).2 0 2 rfl⟩

/-- C2: the native freeBitmap call for a Bitmap's handle is issued exactly
once, and only when the last shared reference drops: a drop with two or more
outstanding references emits nothing, a drop of the last reference emits
exactly the one free call, and dropping all n + 1 references of a cell emits
exactly one free call in total. -/
theorem graphics_C2_free_exactly_once (w : RcBitmap) :
    (2 ≤ w.strong → w.dropRef.trace = w.trace) ∧
    (w.strong = 1 →
      w.dropRef.trace = w.trace ++ [TraceEvent.native (NativeCall.freeBitmap w.raw_bitmap)]) ∧
    (∀ n : Nat, w.strong = n + 1 →
      (RcBitmap.dropN (n + 1) w).trace
        = w.trace ++ [TraceEvent.native (NativeCall.freeBitmap w.raw_bitmap)]) := by
  refine ⟨?_, ?_, ?_⟩
  · intro h
    have h1 : ¬ w.strong = 1 := by omega
    simp [RcBitmap.dropRef, h1]
  · intro h
    simp [RcBitmap.dropRef, h, BitmapInner.dropTrace]
  · intro n h
    simpa [BitmapInner.dropTrace] using dropN_all_refs n w h

/-- Witness for C2 on a cell holding handle 9: a drop at count 2 frees nothing,
a drop at count 1 frees once, and three drops at count 3 free exactly once. -/
theorem graphics_C2_witness :
    (RcBitmap.dropRef { strong := 2, raw_bitmap := 9, trace := [] }).trace = [] ∧
    (RcBitmap.dropRef { strong := 1, raw_bitmap := 9, trace := [] }).trace
      = [TraceEvent.native (NativeCall.freeBitmap 9)] ∧
    (RcBitmap.dropN 3 { strong := 3, raw_bitmap := 9, trace := [] }).trace
      = [TraceEvent.native (NativeCall.freeBitmap 9)] :=
  ⟨(graphics_C2_free_exactly_once { strong := 2, raw_bitmap := 9, trace := [] }).1
      (Nat.le_refl 2),
   (graphics_C2_free_exactly_once { strong := 1, raw_bitmap := 9, trace := [] }).2.1 rfl,
   (graphics_C2_free_exactly_once { strong := 3, raw_bitmap := 9, trace := [] }).2.2 2 rfl⟩

/-- Counterexample to C3 as stated: on the stub response (null handle, null
error string), Bitmap::load succeeds — loadIntoBitmap returns no handle and
the source only inspects the error string — so the claimed silent-failure
error for Bitmap::load does not occur. -/
theorem graphics_C3_counterexample : ¬ C3ClaimAsStated :=
  fun h =>
    absurd (((h ("x") { handle := 0, err := none } 5 rfl).1 rfl rfl).2.2) (by decide)

/-- C3 amended: load_bitmap and load_bitmap_table classify the stub response
exactly as claimed (error string on null handle, distinct fallback message on
silent null handle, success on non-null handle regardless of the error
string); Bitmap::load instead fails precisely when the driver wrote an error
string and succeeds when it did not, with no silent-failure case. -/
theorem graphics_C3_load_errors (path : String) (resp : LoadResponse) (raw : Ptr)
    (hpath : pathHasNul path = false) :
    (resp.handle = 0 → resp.err = none →
      Graphics.load_bitmap path resp = Except.error load_bitmap_silent_msg ∧
      Graphics.load_bitmap_table path resp = Except.error load_bitmap_table_silent_msg) ∧
    (∀ msg, resp.handle = 0 → resp.err = some msg →
      Graphics.load_bitmap path resp = Except.error msg ∧
      Graphics.load_bitmap_table path resp = Except.error msg) ∧
    (resp.handle ≠ 0 →
      Graphics.load_bitmap path resp = Except.ok resp.handle ∧
      Graphics.load_bitmap_table path resp = Except.ok resp.handle) ∧
    (∀ msg, resp.err = some msg → BitmapInner.load raw path resp = Except.error msg) ∧
    (resp.err = none → BitmapInner.load raw path resp = Except.ok ()) := by
  refine ⟨?_, ?_, ?_, ?_, ?_⟩
  · intro h0 he
    constructor <;> simp [Graphics.load_bitmap, Graphics.load_bitmap_table, hpath, h0, he]
  · intro msg h0 he
    constructor <;> simp [Graphics.load_bitmap, Graphics.load_bitmap_table, hpath, h0, he]
  · intro h0
    constructor <;> simp [Graphics.load_bitmap, Graphics.load_bitmap_table, hpath, h0]
  · intro msg he
    simp [BitmapInner.load, hpath, he]
  · intro he
    simp [BitmapInner.load, hpath, he]

/-- Witness for C3 at concrete stub responses exercising every branch of the
amended claim. -/
theorem graphics_C3_witness :
    Graphics.load_bitmap ("x") { handle := 0, err := none }
      = Except.error load_bitmap_silent_msg ∧
    Graphics.load_bitmap ("x") { handle := 0, err := some ("bad image") }
      = Except.error ("bad image") ∧
    Graphics.load_bitmap_table ("x") { handle := 7, err := some ("ignored") }
      = Except.ok 7 ∧
    BitmapInner.load 5 ("x") { handle := 7, err := some ("decode failed") }
      = Except.error ("decode failed") ∧
    BitmapInner.load 5 ("x") { handle := 0, err := none } = Except.ok () :=
  ⟨((graphics_C3_load_errors ("x") { handle := 0, err := none } 5 rfl).1 rfl rfl).1,
   (((graphics_C3_load_errors ("x") { handle := 0, err := some ("bad image") } 5 rfl).2.1)
      ("bad image") rfl rfl).1,
   (((graphics_C3_load_errors ("x") { handle := 7, err := some ("ignored") } 5 rfl).2.2.1)
      (by decide)).2,
   ((graphics_C3_load_errors ("x") { handle := 7, err := some ("decode failed") } 5
      rfl).2.2.2.1) ("decode failed") rfl,
   ((graphics_C3_load_errors ("x") { handle := 0, err := none } 5 rfl).2.2.2.2) rfl⟩

/-- C4 evaluated at the failing input: into_color on bitmap handle 5 at
reference point (0, 0), with the driver deriving the all-255 pattern stored at
its own pointer 77, returns the default-initialized all-zero pattern buffer —
not the driver-derived bytes, which differ from it. -/
theorem graphics_C4_into_color_default_buffer :
    (BitmapInner.into_color 5 { rcId := 0, raw_bitmap := 6 } { x := 0, y := 0 }
        { driverPatternBytes := List.replicate 16 255, driverPatternPtr := 77 }).returned
      = LCDColorM.Pattern (List.replicate 16 0) ∧
    LCDColorM.Pattern (List.replicate 16 0)
      ≠ LCDColorM.Pattern (List.replicate 16 255) :=
  ⟨rfl, by decide⟩

/-- Counterexample to C5 as stated: BitmapTable::new performs no null check, so
the null strip handle propagates into the first getTableBitmap fetch — the
very first cache miss issues a native call whose table argument is null. -/
theorem graphics_C5_counterexample : ¬ C5ClaimAsStated :=
  fun h => absurd (h.2 0) (by decide)

/-- C5 amended: Font::new rejects a null handle with an error and performs zero
native calls (and accepts any non-null handle, also with zero native calls),
while BitmapTable::new performs no validation at all: it stores any handle,
null included, issues no native call at construction, and the null handle then
propagates into the getTableBitmap call of the first cache miss. -/
theorem graphics_C5_null_handle_checks (p : Ptr) (hp : p ≠ 0) :
    (Font.new 0).1 = Except.error ("Null pointer passed to Font::new") ∧
    (Font.new 0).2 = [] ∧
    (Font.new p).1 = Except.ok { ptr := p } ∧
    (Font.new p).2 = [] ∧
    (∀ q : Ptr, (BitmapTable.new q).1.raw_bitmap_table = q ∧ (BitmapTable.new q).2 = []) ∧
    ((mkTableWorld ((BitmapTable.new 0).1.raw_bitmap_table) 1).get_bitmap 0).2.trace
      = [NativeCall.getTableBitmap 0 0] := by
  refine ⟨rfl, rfl, ?_, ?_, fun q => ⟨rfl, rfl⟩, rfl⟩
  · simp [Font.new, hp]
  · simp [Font.new, hp]

/-- Witness for C5 at the non-null handle 7. -/
theorem graphics_C5_witness :
    (Font.new 7).1 = Except.ok { ptr := 7 } ∧ (Font.new 0).2 = [] :=
  ⟨(graphics_C5_null_handle_checks 7 (by decide)).2.2.1,
   (graphics_C5_null_handle_checks 7 (by decide)).2.1⟩

/-- C6: BitmapTableInner::load leaves the cache of already-resolved Bitmap
entries unchanged for every path, every prior cache state and every stub
response, whether it succeeds or fails: the resulting inner table is the old
one, and every index still looks up to the same cached Bitmap. -/
theorem graphics_C6_load_preserves_cache (inner : BitmapTableInner) (path : String)
    (resp : LoadResponse) :
    (inner.load path resp).2 = inner ∧
    ∀ i : Nat, lookupBitmap ((inner.load path resp).2).bitmaps i
      = lookupBitmap inner.bitmaps i := by
  have h : (inner.load path resp).2 = inner := by
    unfold BitmapTableInner.load
    split
    · rfl
    · split <;> rfl
  exact ⟨h, fun i => by rw [h]⟩

/-- C7: dropping a Font, however constructed, emits only the console log line
and in particular no resource-releasing native call. -/
theorem graphics_C7_font_drop_no_free (f : Font) :
    Font.drop f = [TraceEvent.log ("Leaking a font")] ∧
    (Font.drop f).filter TraceEvent.releasesResource = [] :=
  ⟨rfl, rfl⟩

/-- C8: whenever get_frame or get_display_frame succeeds, the returned byte
view has length exactly LCD_ROWSIZE * LCD_ROWS, and a null frame pointer from
the driver yields an error rather than a buffer. -/
theorem graphics_C8_frame_length (p : Ptr) :
    (∀ s : FrameSlice, Graphics.get_frame p = Except.ok s →
      s.len = LCD_ROWSIZE * LCD_ROWS) ∧
    (∀ s : FrameSlice, Graphics.get_display_frame p = Except.ok s →
      s.len = LCD_ROWSIZE * LCD_ROWS) ∧
    (Graphics.get_frame 0).isOk = false ∧
    (Graphics.get_display_frame 0).isOk = false := by
  refine ⟨?_, ?_, rfl, rfl⟩
  · intro s hs
    unfold Graphics.get_frame at hs
    split at hs
    · simp at hs
    · injection hs with h
      subst h
      rfl
  · intro s hs
    unfold Graphics.get_display_frame at hs
    split at hs
    · simp at hs
    · injection hs with h
      subst h
      rfl

/-- Witness for C8 at the non-null frame pointer 7 and the null pointer. -/
theorem graphics_C8_witness :
    FrameSlice.len { base := 7, len := LCD_ROWSIZE * LCD_ROWS }
      = LCD_ROWSIZE * LCD_ROWS ∧
    (Graphics.get_frame 0).isOk = false :=
  ⟨(graphics_C8_frame_length 7).1 { base := 7, len := LCD_ROWSIZE * LCD_ROWS } rfl,
   (graphics_C8_frame_length 0).2.2.1⟩

/-- C9: Bitmap::draw_scaled issues the identical drawScaledBitmap native call
for any two values of its flip argument with all other arguments equal — the
public flip parameter is discarded. -/
theorem graphics_C9_draw_scaled_flip_ignored (b : BitmapObj)
    (target stencil : Option BitmapObj) (location : ScreenPointM)
    (scale : Vector2F32) (mode : LCDBitmapDrawMode) (f1 f2 : LCDBitmapFlip)
    (clip : LCDRectM) :
    Bitmap.draw_scaled b target stencil location scale mode f1 clip
      = Bitmap.draw_scaled b target stencil location scale mode f2 clip := rfl

/-- C10: Graphics::fill_ellipse issues the identical fillEllipse native call
for any two values of its line_width argument with all other arguments equal —
the line_width parameter is never passed to the driver. -/
theorem graphics_C10_fill_ellipse_line_width_ignored (target stencil : Option BitmapObj)
    (center : ScreenPointM) (size : ScreenSizeM) (w1 w2 : Int)
    (start_angle end_angle : F32) (color : LCDColorM) (clip : LCDRectM) :
    Graphics.fill_ellipse target stencil center size w1 start_angle end_angle color clip
      = Graphics.fill_ellipse target stencil center size w2 start_angle end_angle color clip
      := rfl
